import Mathlib

/-!
Shallow embedding of `src/config/boards/shields/klink_kbd/src/klink_indicator.c`:
a three-color status-LED indicator for a keyboard firmware image.

Machine integers are modelled as `Nat` with explicit `% 2^w` where the C code
can overflow (`uint8_t flash_times--`, `uint16_t led_timer_steps++`).
External collaborators (BLE stack queries, HID queries, the LED driver) are
modelled as explicit inputs and as a list of emitted hardware writes.
-/

namespace KlinkIndicator

/-- Bit 0 of `keylock`: num lock (C macro `NUMLOCK_BIT`). -/
def NUMLOCK_BIT : Nat := 1
/-- Bit 1 of `keylock`: caps lock (C macro `CAPSLOCK_BIT`). -/
def CAPSLOCK_BIT : Nat := 2
/-- Bit 2 of `keylock`: scroll lock (C macro `SCROLLLOCK_BIT`). -/
def SCROLLLOCK_BIT : Nat := 4

/-- The process-wide mutable record `struct indicator_state_t`.
All fields are `uint8_t` in the source; we keep them as `Nat` and apply
`% 256` exactly where the source arithmetic can wrap. -/
structure IndicatorState where
  keylock : Nat
  connection : Nat
  active_device : Nat
  battery : Nat
  flash_times : Nat
deriving DecidableEq, Repr

/-- One hardware call to the LED driver: `led_on` / `led_off` on one of the
three channels 0 = red, 1 = green, 2 = blue. -/
structure HwWrite where
  channel : Nat
  turnOn : Bool
deriving DecidableEq, Repr

/-- The Color Setter `set_indicator_color(uint8_t bits)`.
The C function keeps a one-slot memo `static uint8_t last_bits = 0`; we pass
that memo explicitly and return the emitted hardware writes together with the
new memo.  When `bits != last_bits` the loop writes ALL three channels
(`led_on` when the channel bit is set, `led_off` otherwise); when equal it
does nothing. -/
def set_indicator_color (bits : Nat) (last_bits : Nat) : List HwWrite × Nat :=
  if bits ≠ last_bits then
    ([⟨0, bits.testBit 0⟩, ⟨1, bits.testBit 1⟩, ⟨2, bits.testBit 2⟩], bits)
  else
    ([], last_bits)

/-- The lock-state listener `get_lock_indicators`: stores the HID
lock-indicator bitmask into `keylock`. -/
def get_lock_indicators (hid_state : Nat) (st : IndicatorState) : IndicatorState :=
  { st with keylock := hid_state }

/-- The battery listener `led_battery_listener_cb`: copies the reported
state of charge into `battery`. -/
def led_battery_listener_cb (state_of_charge : Nat) (st : IndicatorState) : IndicatorState :=
  { st with battery := state_of_charge }

/-- The BLE profile listener `ble_active_profile_update`.  The external
queries `zmk_ble_active_profile_index()` and
`zmk_ble_active_profile_is_connected()` are passed as arguments. -/
def ble_active_profile_update (profile_index : Nat) (connected : Bool)
    (st : IndicatorState) : IndicatorState :=
  if profile_index > 3 then st
  else
    let st1 := { st with active_device := profile_index }
    if connected then
      { st1 with connection := 2, flash_times := 3 * 4 }
    else
      { st1 with connection := 1, flash_times := 15 * 4 }

/-- The keycode handler `zmk_handle_keycode_user`: when the keycode is
`0xAB` it runs `ble_active_profile_update`, otherwise it leaves the
indicator state unchanged. -/
def zmk_handle_keycode_user (keycode : Nat) (profile_index : Nat) (connected : Bool)
    (st : IndicatorState) : IndicatorState :=
  if keycode = 0xAB then ble_active_profile_update profile_index connected st else st

/-- The startup task `klink_indicator_init_thread`: sets
`connection = 1` (Pairing) and `battery = 111`. -/
def klink_indicator_init_thread (st : IndicatorState) : IndicatorState :=
  { st with connection := 1, battery := 111 }

/-- The fixed per-slot palette `static uint8_t profile_color_bits[3]`. -/
def profile_color_bits : List Nat := [0b011, 0b110, 0b101]

/-- State carried across iterations of the sequencer loop
`led_process_thread`: the shared indicator record, the loop-local
`static uint16_t led_timer_steps`, and the Color Setter memo
`static uint8_t last_bits`. -/
structure SeqState where
  ind : IndicatorState
  led_timer_steps : Nat
  last_bits : Nat
deriving DecidableEq, Repr

/-- Which branch of the sequencer decision tree ran on a tick. -/
inductive Mode where
  | ble
  | lowBattery
  | lock
deriving DecidableEq, Repr

/-- Result of one sequencer tick: the branch that ran, whether the thread
executed its `return` (halting the loop forever), the masks passed to the
Color Setter, the hardware writes it actually performed, and the next
state. -/
structure TickRes where
  mode : Mode
  halted : Bool
  calls : List Nat
  writes : List HwWrite
  next : SeqState
deriving DecidableEq, Repr

/-- External queries made by the sequencer itself: whether
`bt_addr_le_eq(zmk_ble_active_profile_addr(), BT_ADDR_LE_ANY)` holds. -/
structure Env where
  addrIsAny : Bool
deriving DecidableEq, Repr

/-- Thread a list of Color Setter calls through the memo, collecting the
hardware writes. -/
def applyCalls (calls : List Nat) (last : Nat) : List HwWrite × Nat :=
  match calls with
  | [] => ([], last)
  | c :: rest =>
    let wl := set_indicator_color c last
    let wl2 := applyCalls rest wl.2
    (wl.1 ++ wl2.1, wl2.2)

/-- One iteration of the `while (true)` loop of `led_process_thread`.
`led_timer_steps` is a `uint16_t` incremented at the top of the loop;
`& 0xf`, `& 0x1f`, `>> 4 & 0x3` become `% 16`, `% 32`, `/ 16 % 4`;
`flash_times--` on a `uint8_t` becomes `(ft + 255) % 256`. -/
def led_process_tick (env : Env) (st : SeqState) : TickRes :=
  let steps := (st.led_timer_steps + 1) % 65536
  if st.ind.connection > 0 then
    if st.ind.active_device ≥ 3 then
      { mode := .ble, halted := true, calls := [], writes := [],
        next := { st with led_timer_steps := steps } }
    else if steps % 16 = 15 then
      let ft := (st.ind.flash_times + 255) % 256
      let color_bits := profile_color_bits.getD st.ind.active_device 0
      let calls :=
        if steps / 16 % 4 = 0 then [0]
        else if steps / 16 % 4 = 1 then [color_bits]
        else if steps / 16 % 4 = 2 then
          (if st.ind.connection ≠ 2 then [0] else [])
        else
          (if st.ind.connection ≠ 2 then
            (if env.addrIsAny then [0b001] else [0b100])
          else [])
      let wl := applyCalls calls st.last_bits
      let conn := if ft = 0 then 0 else st.ind.connection
      { mode := .ble, halted := false, calls := calls, writes := wl.1,
        next := { ind := { st.ind with flash_times := ft, connection := conn },
                  led_timer_steps := steps, last_bits := wl.2 } }
    else
      { mode := .ble, halted := false, calls := [], writes := [],
        next := { st with led_timer_steps := steps } }
  else if st.ind.battery < 10 then
    let calls :=
      if steps % 32 = 15 then [0b001]
      else if steps % 32 = 31 then [0] else []
    let wl := applyCalls calls st.last_bits
    { mode := .lowBattery, halted := false, calls := calls, writes := wl.1,
      next := { st with led_timer_steps := steps, last_bits := wl.2 } }
  else
    let calls := if st.ind.keylock.testBit 1 then [0b101] else [0]
    let wl := applyCalls calls st.last_bits
    { mode := .lock, halted := false, calls := calls, writes := wl.1,
      next := { st with led_timer_steps := steps, last_bits := wl.2 } }

/-- One step of the sequencer thread viewed from outside: `none` is a dead
(returned) thread, which performs nothing forever after. -/
def stepO (env : Env) (ost : Option SeqState) : Option SeqState × List Nat :=
  match ost with
  | none => (none, [])
  | some st =>
    let r := led_process_tick env st
    if r.halted then (none, []) else (some r.next, r.calls)

/-- Trace of Color Setter calls over `n` ticks, one (possibly empty) list of
masks per tick. -/
def traceCalls (env : Env) (ost : Option SeqState) (n : Nat) : List (List Nat) :=
  match n with
  | 0 => []
  | m + 1 =>
    let r := stepO env ost
    r.2 :: traceCalls env r.1 m

/-- State of the sequencer thread after `n` ticks. -/
def runO (env : Env) (ost : Option SeqState) (n : Nat) : Option SeqState :=
  match n with
  | 0 => ost
  | m + 1 => runO env (stepO env ost).1 m

/-- Zero-initialized C statics: the state of `indicator_state` at load time. -/
def zeroState : IndicatorState :=
  { keylock := 0, connection := 0, active_device := 0, battery := 0, flash_times := 0 }

/-- Sequencer state right after the startup task has run: the startup task
applied to the zero-initialized record, with the loop statics at their
initial values. -/
def bootState : SeqState :=
  { ind := klink_indicator_init_thread zeroState, led_timer_steps := 0, last_bits := 0 }

/-- A fixed environment for concrete boot runs (no profile address is set at
boot, so the address equals `BT_ADDR_LE_ANY`); the choice only affects which
color phase 3 renders, never the timing or the state evolution. -/
def bootEnv : Env := { addrIsAny := true }

end KlinkIndicator

namespace KlinkIndicator

lemma tick_mode_ble (env : Env) (st : SeqState) (h : st.ind.connection ≠ 0) :
    (led_process_tick env st).mode = Mode.ble := by
  simp only [led_process_tick]
  rw [if_pos (Nat.pos_of_ne_zero h)]
  split
  · rfl
  · split <;> rfl

lemma tick_mode_lowBattery (env : Env) (st : SeqState) (h1 : st.ind.connection = 0)
    (h2 : st.ind.battery < 10) :
    (led_process_tick env st).mode = Mode.lowBattery := by
  simp [led_process_tick, h1, h2]

lemma tick_mode_lock (env : Env) (st : SeqState) (h1 : st.ind.connection = 0)
    (h2 : ¬ st.ind.battery < 10) :
    (led_process_tick env st).mode = Mode.lock := by
  simp [led_process_tick, h1, h2]

/-- C1: Mode priority is strict and exclusive.  On every sequencer tick the
branch that runs is the BLE branch exactly when `connection ≠ 0`, the
low-battery branch exactly when `connection = 0 ∧ battery < 10`, and the
lock branch exactly when `connection = 0 ∧ ¬ battery < 10`; in particular
with `connection = Pairing (1)` and `battery = 5` the BLE branch alone runs,
so the red battery blink is never rendered while BLE mode is active. -/
theorem c1_mode_priority (env : Env) (st : SeqState) :
    ((led_process_tick env st).mode = Mode.ble ↔ st.ind.connection ≠ 0) ∧
    ((led_process_tick env st).mode = Mode.lowBattery ↔
      st.ind.connection = 0 ∧ st.ind.battery < 10) ∧
    ((led_process_tick env st).mode = Mode.lock ↔
      st.ind.connection = 0 ∧ ¬ st.ind.battery < 10) ∧
    (st.ind.connection = 1 ∧ st.ind.battery = 5 →
      (led_process_tick env st).mode = Mode.ble) := by
  by_cases h1 : st.ind.connection = 0
  · by_cases h2 : st.ind.battery < 10
    · simp [tick_mode_lowBattery env st h1 h2, h1, h2]
    · simp [tick_mode_lock env st h1 h2, h1, h2]
  · simp [tick_mode_ble env st h1, h1]

/-- C1 witness: with `connection = 1` and `battery = 5` the tick runs the
BLE branch. -/
theorem c1_mode_priority_witness :
    (led_process_tick ⟨true⟩
      ⟨⟨0, 1, 0, 5, 60⟩, 0, 0⟩).mode = Mode.ble :=
  (c1_mode_priority ⟨true⟩ ⟨⟨0, 1, 0, 5, 60⟩, 0, 0⟩).2.2.2 ⟨rfl, rfl⟩

/-- C2: the BLE profile update is a no-op when the queried profile index is
out of range (`> 3`); for an in-range index it sets `active_device` to the
index and either `connection = 2, flash_times = 12` (connected) or
`connection = 1, flash_times = 60` (not connected). -/
theorem c2_ble_profile_update (idx : Nat) (connected : Bool) (st : IndicatorState) :
    (idx > 3 → ble_active_profile_update idx connected st = st) ∧
    (idx ≤ 3 → connected = true →
      ble_active_profile_update idx connected st =
        { st with active_device := idx, connection := 2, flash_times := 12 }) ∧
    (idx ≤ 3 → connected = false →
      ble_active_profile_update idx connected st =
        { st with active_device := idx, connection := 1, flash_times := 60 }) := by
  refine ⟨fun h => ?_, fun h hc => ?_, fun h hc => ?_⟩
  · simp [ble_active_profile_update, h]
  · subst hc
    simp [ble_active_profile_update, Nat.not_lt.mpr h]
  · subst hc
    simp [ble_active_profile_update, Nat.not_lt.mpr h]

/-- C2 witness: index 4 is a no-op; index 2 connected sets
`(2, 2, 12)`; index 0 not connected sets `(0, 1, 60)`. -/
theorem c2_ble_profile_update_witness :
    ble_active_profile_update 4 true ⟨7, 0, 1, 50, 9⟩ = ⟨7, 0, 1, 50, 9⟩ ∧
    ble_active_profile_update 2 true ⟨7, 0, 1, 50, 9⟩ = ⟨7, 2, 2, 50, 12⟩ ∧
    ble_active_profile_update 0 false ⟨7, 0, 1, 50, 9⟩ = ⟨7, 1, 0, 50, 60⟩ :=
  ⟨(c2_ble_profile_update 4 true ⟨7, 0, 1, 50, 9⟩).1 (by decide),
   (c2_ble_profile_update 2 true ⟨7, 0, 1, 50, 9⟩).2.1 (by decide) rfl,
   (c2_ble_profile_update 0 false ⟨7, 0, 1, 50, 9⟩).2.2 (by decide) rfl⟩

/-- C3 counterexample: calling the Color Setter with mask `0b001` and then
`0b011` performs a hardware write on channel 0 even though channel 0's bit
is the same in both masks, refuting "zero hardware writes for channels
whose bit is unchanged".  (The C loop rewrites all three channels whenever
the mask differs from the memoized one.) -/
theorem c3_unchanged_channel_written :
    (1 : Nat) ≠ 3 ∧ Nat.testBit 1 0 = Nat.testBit 3 0 ∧
    ((set_indicator_color 3 (set_indicator_color 1 0).2).1.filter
      (fun w => w.channel == 0)).length = 1 := by
  decide

/-- C3 (amended): after a call with `m1` the memo is `m1`; a second call
with `m2 ≠ m1` performs exactly one hardware write per channel — all three
channels, changed or not — driving each channel per its bit in `m2`; a
second call with the same mask performs zero hardware writes. -/
theorem c3_color_setter_writes (last m1 m2 : Nat) :
    ((set_indicator_color m1 last).2 = m1) ∧
    (m2 ≠ m1 → (set_indicator_color m2 m1).1 =
      [⟨0, m2.testBit 0⟩, ⟨1, m2.testBit 1⟩, ⟨2, m2.testBit 2⟩]) ∧
    ((set_indicator_color m1 m1).1 = []) := by
  refine ⟨?_, fun h => ?_, ?_⟩
  · by_cases h : m1 = last
    · simp [set_indicator_color, h]
    · simp [set_indicator_color, h]
  · simp [set_indicator_color, h]
  · simp [set_indicator_color]

/-- C3 witness: concrete second call with a differing mask writes all three
channels per the new mask's bits. -/
theorem c3_color_setter_writes_witness :
    (3 : Nat) ≠ 1 ∧ (set_indicator_color 3 1).1 =
      [⟨0, true⟩, ⟨1, true⟩, ⟨2, false⟩] :=
  ⟨by decide, (c3_color_setter_writes 0 1 3).2.1 (by decide)⟩

/-- C9: a keycode event with keycode `0xAB` performs exactly the BLE
profile update with the live queried index and connected flag; any other
keycode leaves the indicator state unchanged. -/
theorem c9_keycode_forwarding (keycode idx : Nat) (connected : Bool) (st : IndicatorState) :
    (keycode = 0xAB → zmk_handle_keycode_user keycode idx connected st =
      ble_active_profile_update idx connected st) ∧
    (keycode ≠ 0xAB → zmk_handle_keycode_user keycode idx connected st = st) := by
  refine ⟨fun h => ?_, fun h => ?_⟩ <;> simp [zmk_handle_keycode_user, h]

/-- C9 witness: keycode `0xAB` forwards to the BLE update, keycode `0x04`
does not change the state. -/
theorem c9_keycode_forwarding_witness :
    zmk_handle_keycode_user 0xAB 2 true ⟨0, 0, 0, 50, 0⟩ =
      ble_active_profile_update 2 true ⟨0, 0, 0, 50, 0⟩ ∧
    zmk_handle_keycode_user 0x04 2 true ⟨0, 0, 0, 50, 0⟩ = ⟨0, 0, 0, 50, 0⟩ :=
  ⟨(c9_keycode_forwarding 0xAB 2 true ⟨0, 0, 0, 50, 0⟩).1 rfl,
   (c9_keycode_forwarding 0x04 2 true ⟨0, 0, 0, 50, 0⟩).2 (by decide)⟩

end KlinkIndicator

namespace KlinkIndicator

lemma tick_lock_calls (env : Env) (st : SeqState) (h1 : st.ind.connection = 0)
    (h2 : ¬ st.ind.battery < 10) :
    (led_process_tick env st).calls =
      if st.ind.keylock.testBit 1 then [5] else [0] := by
  simp [led_process_tick, h1, h2]

/-- C8: in lock mode (`connection = 0`, `battery ≥ 10`) the caps-lock bit is
evaluated on every tick — no 16-tick-boundary hypothesis is needed — and the
tick invokes the Color Setter with `0b101` when bit 1 of `keylock` is set and
with `0` otherwise; hence two states differing in the caps-lock bit render
different colors on the very next tick. -/
theorem c8_lock_mode_every_tick (env : Env) (st : SeqState)
    (h1 : st.ind.connection = 0) (h2 : ¬ st.ind.battery < 10) :
    ((led_process_tick env st).calls =
      if st.ind.keylock.testBit 1 then [5] else [0]) ∧
    (∀ st2 : SeqState, st2.ind.connection = 0 → ¬ st2.ind.battery < 10 →
      st2.ind.keylock.testBit 1 ≠ st.ind.keylock.testBit 1 →
      (led_process_tick env st2).calls ≠ (led_process_tick env st).calls) := by
  refine ⟨tick_lock_calls env st h1 h2, fun st2 g1 g2 g3 => ?_⟩
  rw [tick_lock_calls env st2 g1 g2, tick_lock_calls env st h1 h2]
  cases hc : st2.ind.keylock.testBit 1 <;> cases hd : st.ind.keylock.testBit 1 <;>
    simp_all

/-- C8 witness: with `battery = 50`, caps-lock set renders `[5]` and a state
with caps-lock clear renders differently on the same tick counter. -/
theorem c8_lock_mode_every_tick_witness :
    (led_process_tick ⟨true⟩ ⟨⟨2, 0, 0, 50, 0⟩, 7, 0⟩).calls = [5] ∧
    (led_process_tick ⟨true⟩ ⟨⟨0, 0, 0, 50, 0⟩, 7, 0⟩).calls ≠
      (led_process_tick ⟨true⟩ ⟨⟨2, 0, 0, 50, 0⟩, 7, 0⟩).calls :=
  ⟨(c8_lock_mode_every_tick ⟨true⟩ ⟨⟨2, 0, 0, 50, 0⟩, 7, 0⟩ rfl (by decide)).1,
   (c8_lock_mode_every_tick ⟨true⟩ ⟨⟨2, 0, 0, 50, 0⟩, 7, 0⟩ rfl (by decide)).2
     ⟨⟨0, 0, 0, 50, 0⟩, 7, 0⟩ rfl (by decide) (by decide)⟩

lemma traceCalls_none (env : Env) (n : Nat) :
    traceCalls env none n = List.replicate n [] := by
  induction n with
  | zero => rfl
  | succ m ih => simp [traceCalls, stepO, ih, List.replicate_succ]

/-- C7: if on any tick `connection ≠ 0` and `active_device ≥ 3`, the
sequencer thread returns (halts) emitting no Color Setter call, and from
that state no rendering ever occurs again: the call trace of every length is
all-empty. -/
theorem c7_defensive_halt (env : Env) (st : SeqState)
    (h1 : st.ind.connection ≠ 0) (h2 : st.ind.active_device ≥ 3) :
    (led_process_tick env st).halted = true ∧
    (led_process_tick env st).calls = [] ∧
    (∀ n : Nat, traceCalls env (some st) n = List.replicate n []) := by
  have hh : (led_process_tick env st).halted = true := by
    simp [led_process_tick, Nat.pos_of_ne_zero h1, h2]
  have hc : (led_process_tick env st).calls = [] := by
    simp [led_process_tick, Nat.pos_of_ne_zero h1, h2]
  refine ⟨hh, hc, fun n => ?_⟩
  cases n with
  | zero => rfl
  | succ m =>
    simp [traceCalls, stepO, hh, traceCalls_none, List.replicate_succ]

/-- C7 witness: a Pairing state with `active_device = 3` halts the thread
and the next five ticks render nothing. -/
theorem c7_defensive_halt_witness :
    (led_process_tick ⟨true⟩ ⟨⟨0, 1, 3, 50, 7⟩, 0, 0⟩).halted = true ∧
    traceCalls ⟨true⟩ (some ⟨⟨0, 1, 3, 50, 7⟩, 0, 0⟩) 5 = List.replicate 5 [] :=
  ⟨(c7_defensive_halt ⟨true⟩ ⟨⟨0, 1, 3, 50, 7⟩, 0, 0⟩ (by decide) (by decide)).1,
   (c7_defensive_halt ⟨true⟩ ⟨⟨0, 1, 3, 50, 7⟩, 0, 0⟩ (by decide) (by decide)).2.2 5⟩

/-- C4: in BLE mode, at every 16-tick boundary the sequencer decrements
`flash_times` exactly once (as a wrapping `uint8_t` decrement); at the
boundary where it reaches 0 (previous value 1) the tick sets `connection`
to Idle (0), while boundaries where the decremented value is nonzero leave
`connection` unchanged; and once `connection = 0` the decision tree never
takes the BLE branch again. -/
theorem c4_flash_decrement_and_exit (env : Env) (st : SeqState)
    (h1 : st.ind.connection ≠ 0) (h2 : st.ind.active_device < 3)
    (h3 : (st.led_timer_steps + 1) % 65536 % 16 = 15) :
    ((led_process_tick env st).next.ind.flash_times =
      (st.ind.flash_times + 255) % 256) ∧
    (st.ind.flash_times = 1 → (led_process_tick env st).next.ind.connection = 0) ∧
    (1 < st.ind.flash_times → st.ind.flash_times ≤ 255 →
      (led_process_tick env st).next.ind.connection = st.ind.connection) ∧
    (∀ st2 : SeqState, st2.ind.connection = 0 →
      (led_process_tick env st2).mode ≠ Mode.ble) := by
  have hple := Nat.pos_of_ne_zero h1
  have hna : ¬ st.ind.active_device ≥ 3 := Nat.not_le.mpr h2
  refine ⟨?_, fun hf => ?_, fun hf1 hf2 => ?_, fun st2 hz => ?_⟩
  · simp [led_process_tick, hple, hna, h3]
  · simp only [led_process_tick]
    rw [if_pos hple, if_neg hna, if_pos h3]
    simp only [hf]
    norm_num
  · simp only [led_process_tick]
    rw [if_pos hple, if_neg hna, if_pos h3]
    have : ¬ (st.ind.flash_times + 255) % 256 = 0 := by omega
    simp only [this, if_neg]
    simp
  · by_cases hb : st2.ind.battery < 10
    · rw [tick_mode_lowBattery env st2 hz hb]
      simp
    · rw [tick_mode_lock env st2 hz hb]
      simp

/-- C4 witness: at a boundary with `flash_times = 1` the decrement reaches 0
and `connection` becomes Idle; with `flash_times = 5` it stays Pairing. -/
theorem c4_flash_decrement_and_exit_witness :
    (led_process_tick ⟨true⟩ ⟨⟨0, 1, 0, 50, 1⟩, 14, 0⟩).next.ind.flash_times = 0 ∧
    (led_process_tick ⟨true⟩ ⟨⟨0, 1, 0, 50, 1⟩, 14, 0⟩).next.ind.connection = 0 ∧
    (led_process_tick ⟨true⟩ ⟨⟨0, 1, 0, 50, 5⟩, 14, 0⟩).next.ind.connection = 1 := by
  refine ⟨?_, ?_, ?_⟩
  · have h := (c4_flash_decrement_and_exit ⟨true⟩ ⟨⟨0, 1, 0, 50, 1⟩, 14, 0⟩
      (by decide) (by decide) (by decide)).1
    rw [h]
    decide
  · exact (c4_flash_decrement_and_exit ⟨true⟩ ⟨⟨0, 1, 0, 50, 1⟩, 14, 0⟩
      (by decide) (by decide) (by decide)).2.1 rfl
  · have h := (c4_flash_decrement_and_exit ⟨true⟩ ⟨⟨0, 1, 0, 50, 5⟩, 14, 0⟩
      (by decide) (by decide) (by decide)).2.2.1 (by decide) (by decide)
    rw [h]

/-- C6: in BLE mode with `active_device < 3`, the palette is
`[0b011, 0b110, 0b101]` and at a 16-tick boundary the 4-phase cycle
renders: phase 0 off; phase 1 the slot color; phase 2 off only when not
Connected; phase 3, only when not Connected, red `0b001` when the profile
address equals the any/unset sentinel and blue `0b100` otherwise; when
Connected (`connection = 2`) phases 2 and 3 invoke the Color Setter not at
all, leaving the slot color steady. -/
theorem c6_ble_phase_rendering (env : Env) (st : SeqState)
    (h1 : st.ind.connection ≠ 0) (h2 : st.ind.active_device < 3)
    (h3 : (st.led_timer_steps + 1) % 65536 % 16 = 15) :
    profile_color_bits = [3, 6, 5] ∧
    ((st.led_timer_steps + 1) % 65536 / 16 % 4 = 0 →
      (led_process_tick env st).calls = [0]) ∧
    ((st.led_timer_steps + 1) % 65536 / 16 % 4 = 1 →
      (led_process_tick env st).calls =
        [profile_color_bits.getD st.ind.active_device 0]) ∧
    ((st.led_timer_steps + 1) % 65536 / 16 % 4 = 2 →
      (led_process_tick env st).calls =
        (if st.ind.connection ≠ 2 then [0] else [])) ∧
    ((st.led_timer_steps + 1) % 65536 / 16 % 4 = 3 →
      (led_process_tick env st).calls =
        (if st.ind.connection ≠ 2 then
          (if env.addrIsAny then [1] else [4])
        else [])) := by
  have hple := Nat.pos_of_ne_zero h1
  have hna : ¬ st.ind.active_device ≥ 3 := Nat.not_le.mpr h2
  refine ⟨rfl, fun hp => ?_, fun hp => ?_, fun hp => ?_, fun hp => ?_⟩ <;>
    · simp only [led_process_tick]
      rw [if_pos hple, if_neg hna, if_pos h3]
      simp [hp]

/-- C6 witness: slot 1 at the four phase boundaries of a Pairing state with
an unset profile address renders `[0]`, `[6]`, `[0]`, `[1]`; a Connected
state at phases 2 and 3 renders nothing. -/
theorem c6_ble_phase_rendering_witness :
    (led_process_tick ⟨true⟩ ⟨⟨0, 1, 1, 50, 9⟩, 14, 0⟩).calls = [0] ∧
    (led_process_tick ⟨true⟩ ⟨⟨0, 1, 1, 50, 9⟩, 30, 0⟩).calls = [6] ∧
    (led_process_tick ⟨true⟩ ⟨⟨0, 1, 1, 50, 9⟩, 46, 0⟩).calls = [0] ∧
    (led_process_tick ⟨true⟩ ⟨⟨0, 1, 1, 50, 9⟩, 62, 0⟩).calls = [1] ∧
    (led_process_tick ⟨true⟩ ⟨⟨0, 2, 1, 50, 9⟩, 46, 0⟩).calls = [] ∧
    (led_process_tick ⟨true⟩ ⟨⟨0, 2, 1, 50, 9⟩, 62, 0⟩).calls = [] := by
  refine ⟨?_, ?_, ?_, ?_, ?_, ?_⟩
  · exact (c6_ble_phase_rendering ⟨true⟩ ⟨⟨0, 1, 1, 50, 9⟩, 14, 0⟩
      (by decide) (by decide) (by decide)).2.1 (by decide)
  · have h := (c6_ble_phase_rendering ⟨true⟩ ⟨⟨0, 1, 1, 50, 9⟩, 30, 0⟩
      (by decide) (by decide) (by decide)).2.2.1 (by decide)
    rw [h]
    rfl
  · have h := (c6_ble_phase_rendering ⟨true⟩ ⟨⟨0, 1, 1, 50, 9⟩, 46, 0⟩
      (by decide) (by decide) (by decide)).2.2.2.1 (by decide)
    rw [h]
    rfl
  · have h := (c6_ble_phase_rendering ⟨true⟩ ⟨⟨0, 1, 1, 50, 9⟩, 62, 0⟩
      (by decide) (by decide) (by decide)).2.2.2.2 (by decide)
    rw [h]
    rfl
  · have h := (c6_ble_phase_rendering ⟨true⟩ ⟨⟨0, 2, 1, 50, 9⟩, 46, 0⟩
      (by decide) (by decide) (by decide)).2.2.2.1 (by decide)
    rw [h]
    rfl
  · have h := (c6_ble_phase_rendering ⟨true⟩ ⟨⟨0, 2, 1, 50, 9⟩, 62, 0⟩
      (by decide) (by decide) (by decide)).2.2.2.2 (by decide)
    rw [h]
    rfl

end KlinkIndicator

namespace KlinkIndicator

lemma tick_battery_basic (env : Env) (st : SeqState) (h1 : st.ind.connection = 0)
    (h2 : st.ind.battery < 10) :
    (led_process_tick env st).halted = false ∧
    (led_process_tick env st).next.ind = st.ind ∧
    (led_process_tick env st).next.led_timer_steps = (st.led_timer_steps + 1) % 65536 ∧
    (led_process_tick env st).calls =
      (if (st.led_timer_steps + 1) % 65536 % 32 = 15 then [1]
       else if (st.led_timer_steps + 1) % 65536 % 32 = 31 then [0] else []) := by
  refine ⟨?_, ?_, ?_, ?_⟩ <;> simp [led_process_tick, h1, h2]

lemma traceCalls_battery (env : Env) (n : Nat) :
    ∀ st : SeqState, st.ind.connection = 0 → st.ind.battery < 10 →
    traceCalls env (some st) n = (List.range n).map (fun k =>
      if (st.led_timer_steps + 1 + k) % 32 = 15 then [1]
      else if (st.led_timer_steps + 1 + k) % 32 = 31 then [0] else []) := by
  induction n with
  | zero => intro st h1 h2; rfl
  | succ m ih =>
    intro st h1 h2
    obtain ⟨hh, hni, hns, hc⟩ := tick_battery_basic env st h1 h2
    have hstep : stepO env (some st) =
        (some (led_process_tick env st).next, (led_process_tick env st).calls) := by
      simp [stepO, hh]
    have hrec := ih (led_process_tick env st).next
      (by rw [hni]; exact h1) (by rw [hni]; exact h2)
    show (stepO env (some st)).2 :: traceCalls env (stepO env (some st)).1 m = _
    rw [hstep]
    simp only
    rw [hrec, hns, hc]
    rw [List.range_succ_eq_map, List.map_cons, List.map_map]
    congr 1
    · have e1 : (st.led_timer_steps + 1) % 65536 % 32 =
          (st.led_timer_steps + 1 + 0) % 32 := by omega
      rw [e1]
    · apply List.map_congr_left
      intro k hk
      have e2 : ((st.led_timer_steps + 1) % 65536 + 1 + k) % 32 =
          (st.led_timer_steps + 1 + Nat.succ k) % 32 := by omega
      simp only [Function.comp]
      rw [e2]

/-- C5: in low-battery mode (`connection = 0`, `battery < 10`), over any
32-tick window aligned to the 32-tick cycle the Color Setter is invoked
exactly twice: with the red mask `0b001` at tick-offset 15 of the window
and with `0` (off) at tick-offset 31, and on no other tick. -/
theorem c5_low_battery_window (env : Env) (st : SeqState)
    (h1 : st.ind.connection = 0) (h2 : st.ind.battery < 10)
    (h3 : st.led_timer_steps % 32 = 31) :
    traceCalls env (some st) 32 =
      (List.range 32).map (fun k => if k = 15 then [1] else if k = 31 then [0] else []) ∧
    ((traceCalls env (some st) 32).filter (fun c => !c.isEmpty)).length = 2 := by
  have hmain : traceCalls env (some st) 32 =
      (List.range 32).map (fun k => if k = 15 then [1] else if k = 31 then [0] else []) := by
    rw [traceCalls_battery env 32 st h1 h2]
    apply List.map_congr_left
    intro k hk
    have hk32 : k < 32 := List.mem_range.mp hk
    have e1 : (st.led_timer_steps + 1 + k) % 32 = k := by omega
    rw [e1]
  refine ⟨hmain, ?_⟩
  rw [hmain]
  decide

/-- C5 witness: a concrete aligned window with `battery = 5` renders red at
offset 15 and off at offset 31 and nothing else. -/
theorem c5_low_battery_window_witness :
    traceCalls ⟨true⟩ (some ⟨⟨0, 0, 0, 5, 0⟩, 31, 0⟩) 32 =
      (List.range 32).map (fun k => if k = 15 then [1] else if k = 31 then [0] else []) ∧
    ((traceCalls ⟨true⟩ (some ⟨⟨0, 0, 0, 5, 0⟩, 31, 0⟩) 32).filter
      (fun c => !c.isEmpty)).length = 2 :=
  c5_low_battery_window ⟨true⟩ ⟨⟨0, 0, 0, 5, 0⟩, 31, 0⟩ rfl (by decide) (by decide)

end KlinkIndicator

namespace KlinkIndicator

lemma runO_add (env : Env) (ost : Option SeqState) (m n : Nat) :
    runO env ost (m + n) = runO env (runO env ost m) n := by
  induction m generalizing ost with
  | zero =>
    rw [Nat.zero_add]
    rfl
  | succ k ih =>
    rw [Nat.succ_add]
    exact ih (stepO env ost).1

set_option maxRecDepth 40000

/-- C10: `flash_times` is an 8-bit counter decremented before the zero
comparison, so a 16-tick boundary reached in BLE mode with `flash_times = 0`
wraps the counter to 255 and does NOT reset `connection` to Idle.  In
particular, from the post-startup state (`connection = Pairing`,
`flash_times` still zero-initialized) the first boundary (tick 15) leaves
`connection = 1` with `flash_times = 255`, and the animation then runs for
255 further quarter-cycle boundaries — not the 60 a Pairing profile event
would set — with `connection` resetting to Idle only at tick
`4095 = 15 + 255 * 16`, the 256th boundary. -/
theorem c10_flash_times_wraps (env : Env) (st : SeqState)
    (h1 : st.ind.connection ≠ 0) (h2 : st.ind.active_device < 3)
    (h3 : (st.led_timer_steps + 1) % 65536 % 16 = 15)
    (h4 : st.ind.flash_times = 0) :
    ((led_process_tick env st).next.ind.flash_times = 255) ∧
    ((led_process_tick env st).next.ind.connection = st.ind.connection) ∧
    (runO bootEnv (some bootState) 15 = some ⟨⟨0, 1, 0, 111, 255⟩, 15, 0⟩) ∧
    (runO bootEnv (some bootState) 4094 = some ⟨⟨0, 1, 0, 111, 1⟩, 4094, 0⟩) ∧
    (runO bootEnv (some bootState) 4095 = some ⟨⟨0, 0, 0, 111, 0⟩, 4095, 1⟩) := by
  have hple := Nat.pos_of_ne_zero h1
  have hna : ¬ st.ind.active_device ≥ 3 := Nat.not_le.mpr h2
  have hwrap : (led_process_tick env st).next.ind.flash_times = 255 := by
    simp only [led_process_tick]
    rw [if_pos hple, if_neg hna, if_pos h3]
    simp only [h4]
  have hconn : (led_process_tick env st).next.ind.connection = st.ind.connection := by
    simp only [led_process_tick]
    rw [if_pos hple, if_neg hna, if_pos h3]
    simp only [h4]
    norm_num
  have e0 : runO bootEnv (some bootState) 512 = some ⟨⟨0, 1, 0, 111, 224⟩, 512, 1⟩ := by
    decide
  have e1 : runO bootEnv (some ⟨⟨0, 1, 0, 111, 224⟩, 512, 1⟩) 512 =
      some ⟨⟨0, 1, 0, 111, 192⟩, 1024, 1⟩ := by decide
  have e2 : runO bootEnv (some ⟨⟨0, 1, 0, 111, 192⟩, 1024, 1⟩) 512 =
      some ⟨⟨0, 1, 0, 111, 160⟩, 1536, 1⟩ := by decide
  have e3 : runO bootEnv (some ⟨⟨0, 1, 0, 111, 160⟩, 1536, 1⟩) 512 =
      some ⟨⟨0, 1, 0, 111, 128⟩, 2048, 1⟩ := by decide
  have e4 : runO bootEnv (some ⟨⟨0, 1, 0, 111, 128⟩, 2048, 1⟩) 512 =
      some ⟨⟨0, 1, 0, 111, 96⟩, 2560, 1⟩ := by decide
  have e5 : runO bootEnv (some ⟨⟨0, 1, 0, 111, 96⟩, 2560, 1⟩) 512 =
      some ⟨⟨0, 1, 0, 111, 64⟩, 3072, 1⟩ := by decide
  have e6 : runO bootEnv (some ⟨⟨0, 1, 0, 111, 64⟩, 3072, 1⟩) 512 =
      some ⟨⟨0, 1, 0, 111, 32⟩, 3584, 1⟩ := by decide
  have e7 : runO bootEnv (some ⟨⟨0, 1, 0, 111, 32⟩, 3584, 1⟩) 510 =
      some ⟨⟨0, 1, 0, 111, 1⟩, 4094, 0⟩ := by decide
  have e8 : runO bootEnv (some ⟨⟨0, 1, 0, 111, 32⟩, 3584, 1⟩) 511 =
      some ⟨⟨0, 0, 0, 111, 0⟩, 4095, 1⟩ := by decide
  refine ⟨hwrap, hconn, by decide, ?_, ?_⟩
  · have hd : (4094 : Nat) = 512 + (512 + (512 + (512 + (512 + (512 + (512 + 510)))))) := by
      norm_num
    rw [hd, runO_add, e0, runO_add, e1, runO_add, e2, runO_add, e3, runO_add, e4,
      runO_add, e5, runO_add, e6, e7]
  · have hd : (4095 : Nat) = 512 + (512 + (512 + (512 + (512 + (512 + (512 + 511)))))) := by
      norm_num
    rw [hd, runO_add, e0, runO_add, e1, runO_add, e2, runO_add, e3, runO_add, e4,
      runO_add, e5, runO_add, e6, e8]

/-- C10 witness: a boundary tick in Pairing mode with `flash_times = 0`
wraps to 255 and keeps `connection = 1`. -/
theorem c10_flash_times_wraps_witness :
    (led_process_tick ⟨true⟩ ⟨⟨0, 1, 0, 111, 0⟩, 14, 0⟩).next.ind.flash_times = 255 ∧
    (led_process_tick ⟨true⟩ ⟨⟨0, 1, 0, 111, 0⟩, 14, 0⟩).next.ind.connection = 1 := by
  refine ⟨(c10_flash_times_wraps ⟨true⟩ ⟨⟨0, 1, 0, 111, 0⟩, 14, 0⟩
    (by decide) (by decide) (by decide) rfl).1, ?_⟩
  have h := (c10_flash_times_wraps ⟨true⟩ ⟨⟨0, 1, 0, 111, 0⟩, 14, 0⟩
    (by decide) (by decide) (by decide) rfl).2.1
  rw [h]

end KlinkIndicator
